import Mathlib

/-!
Shallow embedding of the data-wrangling pipeline of
`src/code/votingbehavior.py` (the "Survey Record Normalizer"):
column projection and rename, coalition collapse, sentinel-to-missing
translation, and the completeness filter with its FilterReport.

Tables before projection are modelled generically (a header of column
names plus rows of integer cells); after projection and rename the table
has a fixed, known set of 17 columns and is modelled as a record type.
Fallible stages (pandas raising on a missing column) return `Option`.
-/

namespace VotingBehavior

/-- A raw table: a header of column names and rows of integer cells,
mirroring the pandas DataFrame read from the CSV. -/
structure DataFrame where
  header : List String
  rows : List (List Int)
deriving DecidableEq, Repr

/-- Value of a named column in one row: the cell at the column's first
position in the header (pandas column lookup), defaulting to 0 off-range. -/
def lookupCell (header : List String) (cells : List Int) (c : String) : Int :=
  cells.getD (header.indexOf c) 0

/-- Source code line 64: the fixed list of raw column names kept for the
analysis, in the order they are selected. -/
def columns_to_keep : List String :=
  ["agea", "gndr", "eisced", "hinctnta", "region", "emplrel",
   "mbtru", "polintr", "lrscale", "stfdem", "trstep",
   "rlgdgr", "imwbcnt", "nwspol", "freehms", "eqpaybg", "prtvteit"]

/-- Source code line 77: the fixed rename substitution (`column_mapping`);
names outside the mapping are left unchanged, as `DataFrame.rename` does. -/
def column_mapping (c : String) : String :=
  if c = "agea" then "Age"
  else if c = "gndr" then "Gender"
  else if c = "eisced" then "EducationLevel"
  else if c = "hinctnta" then "HouseholdIncome"
  else if c = "region" then "Region"
  else if c = "emplrel" then "EmploymentStatus"
  else if c = "mbtru" then "TradeUnionMember"
  else if c = "polintr" then "PoliticalInterest"
  else if c = "lrscale" then "LeftRightScale"
  else if c = "stfdem" then "SatisfactionDemocracy"
  else if c = "trstep" then "TrustEP"
  else if c = "rlgdgr" then "Religion"
  else if c = "imwbcnt" then "AttitudesTowardImmigration"
  else if c = "freehms" then "AttitudeTowardLGBT"
  else if c = "nwspol" then "MediaConsumption"
  else if c = "eqpaybg" then "ZeroPayGapOpinion"
  else if c = "prtvteit" then "VotedParty"
  else c

/-- Projection of one raw row onto `columns_to_keep`, in that column order. -/
def projectRow (header : List String) (cells : List Int) : List Int :=
  columns_to_keep.map (lookupCell header cells)

/-- Source code line 69, `df_selected = df[columns_to_keep]`: the sub-table
with exactly the listed columns in the same row order. Pandas raises a
KeyError (the spec's SchemaError) when a listed column is absent, embedded
here as `none`. -/
def selectColumns (df : DataFrame) : Option DataFrame :=
  if columns_to_keep.all (fun c => df.header.contains c) then
    some ⟨columns_to_keep, df.rows.map (projectRow df.header)⟩
  else none

/-- Source code line 97, `df_selected.rename(columns=column_mapping)`. -/
def renameColumns (df : DataFrame) : DataFrame :=
  ⟨df.header.map column_mapping, df.rows⟩

/-- Projection followed by rename: the first pipeline stage. -/
def selectRename (df : DataFrame) : Option DataFrame :=
  (selectColumns df).map renameColumns

/-- A row after projection and rename: the 17 tracked survey fields,
integer-coded as in the source. -/
structure Row where
  Age : Int
  Gender : Int
  EducationLevel : Int
  HouseholdIncome : Int
  Region : Int
  EmploymentStatus : Int
  TradeUnionMember : Int
  PoliticalInterest : Int
  LeftRightScale : Int
  SatisfactionDemocracy : Int
  TrustEP : Int
  Religion : Int
  AttitudesTowardImmigration : Int
  MediaConsumption : Int
  AttitudeTowardLGBT : Int
  ZeroPayGapOpinion : Int
  VotedParty : Int
deriving DecidableEq, Repr

/-- Reading a projected row's cells (in `columns_to_keep` order) into the
record type. -/
def toRow (cells : List Int) : Row where
  Age := cells.getD 0 0
  Gender := cells.getD 1 0
  EducationLevel := cells.getD 2 0
  HouseholdIncome := cells.getD 3 0
  Region := cells.getD 4 0
  EmploymentStatus := cells.getD 5 0
  TradeUnionMember := cells.getD 6 0
  PoliticalInterest := cells.getD 7 0
  LeftRightScale := cells.getD 8 0
  SatisfactionDemocracy := cells.getD 9 0
  TrustEP := cells.getD 10 0
  Religion := cells.getD 11 0
  AttitudesTowardImmigration := cells.getD 12 0
  MediaConsumption := cells.getD 13 0
  AttitudeTowardLGBT := cells.getD 14 0
  ZeroPayGapOpinion := cells.getD 15 0
  VotedParty := cells.getD 16 0

/-- Value of a renamed column in a `Row` (0 for unknown names, which never
occur among the tracked columns). -/
def colValue (r : Row) (c : String) : Int :=
  if c = "Age" then r.Age
  else if c = "Gender" then r.Gender
  else if c = "EducationLevel" then r.EducationLevel
  else if c = "HouseholdIncome" then r.HouseholdIncome
  else if c = "Region" then r.Region
  else if c = "EmploymentStatus" then r.EmploymentStatus
  else if c = "TradeUnionMember" then r.TradeUnionMember
  else if c = "PoliticalInterest" then r.PoliticalInterest
  else if c = "LeftRightScale" then r.LeftRightScale
  else if c = "SatisfactionDemocracy" then r.SatisfactionDemocracy
  else if c = "TrustEP" then r.TrustEP
  else if c = "Religion" then r.Religion
  else if c = "AttitudesTowardImmigration" then r.AttitudesTowardImmigration
  else if c = "MediaConsumption" then r.MediaConsumption
  else if c = "AttitudeTowardLGBT" then r.AttitudeTowardLGBT
  else if c = "ZeroPayGapOpinion" then r.ZeroPayGapOpinion
  else if c = "VotedParty" then r.VotedParty
  else 0

/-- Source code line 126: the set `set(range(1, 10)) - set([9])` used by the
`isin` pre-filter on VotedParty, i.e. the codes 1 through 8. -/
def votedPartyKeepSet : List Int := [1, 2, 3, 4, 5, 6, 7, 8]

/-- Source code line 126, `df_selected[df_selected['VotedParty'].isin(...)]`. -/
def isinPreFilter (t : List Row) : List Row :=
  t.filter (fun r => votedPartyKeepSet.contains r.VotedParty)

/-- Source code line 130, `assign_target`: coalition code from voted-party
code (1 = CSX, 2 = M5S, 3 = TerzoPolo, 4 = CDX per the label dictionary),
`none` for every unlisted code. -/
def assign_target (VotedParty : Int) : Option Int :=
  if VotedParty ∈ ([2, 7, 8, 10] : List Int) then some 1
  else if VotedParty ∈ ([1, 4, 5] : List Int) then some 4
  else if VotedParty ∈ ([3] : List Int) then some 2
  else if VotedParty ∈ ([6] : List Int) then some 3
  else none

/-- A row of `df_selected` after line 142: the original fields plus the
derived `VotedCoalition` column (`none` embeds NaN). -/
abbrev CleanRow := Row × Option Int

/-- Source code line 142: `df_selected['VotedCoalition'] =
df_selected['VotedParty'].apply(assign_target)`. -/
def addCoalition (t : List Row) : List CleanRow :=
  t.map (fun r => (r, assign_target r.VotedParty))

/-- Source code line 145: `df_selected.dropna(subset=['VotedCoalition'])`. -/
def dropnaCoalition (t : List CleanRow) : List CleanRow :=
  t.filter (fun p => p.2.isSome)

/-- The coalition-collapse stage: pre-filter, derive VotedCoalition, drop
the unresolved rows (lines 126 to 145). -/
def coalitionCollapse (t : List Row) : List CleanRow :=
  dropnaCoalition (addCoalition (isinPreFilter t))

/-- Source code lines 162 to 180, `exclusion_rules`: the tracked column
names, in the dictionary's insertion order (the loop order of
`exclusion_rules.items()`). -/
def trackedColumns : List String :=
  ["VotedParty", "ZeroPayGapOpinion", "MediaConsumption", "AttitudeTowardLGBT",
   "EducationLevel", "Age", "Religion", "TrustEP", "AttitudesTowardImmigration",
   "Gender", "HouseholdIncome", "EmploymentStatus", "TradeUnionMember",
   "PoliticalInterest", "LeftRightScale", "SatisfactionDemocracy", "Region"]

/-- Source code lines 162 to 180: the declared sentinel codes of each
tracked column (empty for names outside the rules). -/
def sentinels (c : String) : List Int :=
  if c = "VotedParty" then [66, 77, 88, 99]
  else if c = "ZeroPayGapOpinion" then [7, 8, 9]
  else if c = "MediaConsumption" then [7777, 8888, 9999]
  else if c = "AttitudeTowardLGBT" then [7, 8, 9]
  else if c = "EducationLevel" then [0, 55, 77, 88, 99]
  else if c = "Age" then [999]
  else if c = "Religion" then [77, 88, 99]
  else if c = "TrustEP" then [77, 88, 99]
  else if c = "AttitudesTowardImmigration" then [77, 88, 99]
  else if c = "Gender" then [9]
  else if c = "HouseholdIncome" then [77, 88, 99]
  else if c = "EmploymentStatus" then [7, 8, 9]
  else if c = "TradeUnionMember" then [7, 8, 9]
  else if c = "PoliticalInterest" then [7, 8, 9]
  else if c = "LeftRightScale" then [77, 88, 99]
  else if c = "SatisfactionDemocracy" then [77, 88, 99]
  else if c = "Region" then [99999]
  else []

/-- A row of the diagnostic table `df_missing` (line 183): every tracked
field may have been replaced by NaN (`none`), while VotedCoalition, not
listed in the rules, keeps its value. -/
structure MRow where
  Age : Option Int
  Gender : Option Int
  EducationLevel : Option Int
  HouseholdIncome : Option Int
  Region : Option Int
  EmploymentStatus : Option Int
  TradeUnionMember : Option Int
  PoliticalInterest : Option Int
  LeftRightScale : Option Int
  SatisfactionDemocracy : Option Int
  TrustEP : Option Int
  Religion : Option Int
  AttitudesTowardImmigration : Option Int
  MediaConsumption : Option Int
  AttitudeTowardLGBT : Option Int
  ZeroPayGapOpinion : Option Int
  VotedParty : Option Int
  VotedCoalition : Option Int
deriving DecidableEq, Repr

/-- Source code line 185, `replace(missing_values, np.nan)` on one cell:
a value in the column's sentinel set becomes the missing marker. -/
def replaceSentinels (c : String) (v : Int) : Option Int :=
  if (sentinels c).contains v then none else some v

/-- The sentinel-to-missing translation of one row of `df_selected`
(source code lines 183 to 185): each column of the exclusion rules is
replaced cell-wise, the VotedCoalition column is not touched. -/
def translateRow (p : CleanRow) : MRow where
  Age := replaceSentinels "Age" p.1.Age
  Gender := replaceSentinels "Gender" p.1.Gender
  EducationLevel := replaceSentinels "EducationLevel" p.1.EducationLevel
  HouseholdIncome := replaceSentinels "HouseholdIncome" p.1.HouseholdIncome
  Region := replaceSentinels "Region" p.1.Region
  EmploymentStatus := replaceSentinels "EmploymentStatus" p.1.EmploymentStatus
  TradeUnionMember := replaceSentinels "TradeUnionMember" p.1.TradeUnionMember
  PoliticalInterest := replaceSentinels "PoliticalInterest" p.1.PoliticalInterest
  LeftRightScale := replaceSentinels "LeftRightScale" p.1.LeftRightScale
  SatisfactionDemocracy := replaceSentinels "SatisfactionDemocracy" p.1.SatisfactionDemocracy
  TrustEP := replaceSentinels "TrustEP" p.1.TrustEP
  Religion := replaceSentinels "Religion" p.1.Religion
  AttitudesTowardImmigration :=
    replaceSentinels "AttitudesTowardImmigration" p.1.AttitudesTowardImmigration
  MediaConsumption := replaceSentinels "MediaConsumption" p.1.MediaConsumption
  AttitudeTowardLGBT := replaceSentinels "AttitudeTowardLGBT" p.1.AttitudeTowardLGBT
  ZeroPayGapOpinion := replaceSentinels "ZeroPayGapOpinion" p.1.ZeroPayGapOpinion
  VotedParty := replaceSentinels "VotedParty" p.1.VotedParty
  VotedCoalition := p.2

/-- Source code lines 183 to 185: the whole `df_missing` table, derived
from `df_selected` without mutating it (the source works on a copy). -/
def translateTable (t : List CleanRow) : List MRow :=
  t.map translateRow

/-- Value of a named column in an `MRow`. -/
def mcolValue (m : MRow) (c : String) : Option Int :=
  if c = "Age" then m.Age
  else if c = "Gender" then m.Gender
  else if c = "EducationLevel" then m.EducationLevel
  else if c = "HouseholdIncome" then m.HouseholdIncome
  else if c = "Region" then m.Region
  else if c = "EmploymentStatus" then m.EmploymentStatus
  else if c = "TradeUnionMember" then m.TradeUnionMember
  else if c = "PoliticalInterest" then m.PoliticalInterest
  else if c = "LeftRightScale" then m.LeftRightScale
  else if c = "SatisfactionDemocracy" then m.SatisfactionDemocracy
  else if c = "TrustEP" then m.TrustEP
  else if c = "Religion" then m.Religion
  else if c = "AttitudesTowardImmigration" then m.AttitudesTowardImmigration
  else if c = "MediaConsumption" then m.MediaConsumption
  else if c = "AttitudeTowardLGBT" then m.AttitudeTowardLGBT
  else if c = "ZeroPayGapOpinion" then m.ZeroPayGapOpinion
  else if c = "VotedParty" then m.VotedParty
  else none

/-- One step of the completeness loop (line 225):
`df_selected[~df_selected[column].isin(values_to_exclude)]`. -/
def filterColumn (c : String) (t : List CleanRow) : List CleanRow :=
  t.filter (fun p => !(sentinels c).contains (colValue p.1 c))

/-- The completeness filter applied over an explicit column order. -/
def applyFilters (cols : List String) (t : List CleanRow) : List CleanRow :=
  cols.foldl (fun acc c => filterColumn c acc) t

/-- Source code lines 224 to 227: the completeness-filter loop over
`exclusion_rules.items()` in dictionary order, yielding `df_filtered`. -/
def completenessFilter (t : List CleanRow) : List CleanRow :=
  applyFilters trackedColumns t

/-- The FilterReport entries for an explicit column order: after each
column's filter, the column name and the remaining row count (the
`print` at line 227). -/
def filterReportAux : List String → List CleanRow → List (String × Nat)
  | [], _ => []
  | c :: cs, t =>
      let t' := filterColumn c t
      (c, t'.length) :: filterReportAux cs t'

/-- The FilterReport of the completeness loop in its fixed order. -/
def filterReport (t : List CleanRow) : List (String × Nat) :=
  filterReportAux trackedColumns t

/-- The mainline pipeline producing the clean table `df_filtered`:
projection and rename, coalition collapse, completeness filter
(`none` embeds the abort on a missing source column). -/
def pipeline (df : DataFrame) : Option (List CleanRow) :=
  (selectRename df).map
    (fun out => completenessFilter (coalitionCollapse (out.rows.map toRow)))

/-- A sample complete row (no sentinel codes, VotedParty = 3, i.e. M5S). -/
def sampleRow : Row :=
  ⟨30, 1, 3, 5, 0, 1, 3, 2, 5, 5, 5, 5, 5, 60, 2, 5, 3⟩

/-- The sample row with the voted-party code replaced. -/
def rowVP (v : Int) : Row := { sampleRow with VotedParty := v }

/-- Raw cells of the sample row in `columns_to_keep` order, with voted-party
code `v` in the last (prtvteit) position. -/
def sampleCells (v : Int) : List Int :=
  [30, 1, 3, 5, 0, 1, 3, 2, 5, 5, 5, 5, 5, 60, 2, 5, v]

/-- A raw one-row table with exactly the required columns. -/
def dfOneRow (v : Int) : DataFrame := ⟨columns_to_keep, [sampleCells v]⟩

/-- Predicate: the row's voted-party code is kept by the isin pre-filter. -/
def keepPred (r : Row) : Bool := votedPartyKeepSet.contains r.VotedParty

/-- Predicate: the row's voted-party code is a declared VotedParty sentinel. -/
def sentPred (r : Row) : Bool := decide (r.VotedParty ∈ ([66, 77, 88, 99] : List Int))

/-- Predicate: the row's voted-party code is the residual code 9. -/
def ninePred (r : Row) : Bool := decide (r.VotedParty = 9)

/-- Cells of a clean row in the clean table's column order (the renamed
columns followed by the derived VotedCoalition). -/
def rowCells (r : Row) : List Int :=
  [r.Age, r.Gender, r.EducationLevel, r.HouseholdIncome, r.Region,
   r.EmploymentStatus, r.TradeUnionMember, r.PoliticalInterest,
   r.LeftRightScale, r.SatisfactionDemocracy, r.TrustEP, r.Religion,
   r.AttitudesTowardImmigration, r.MediaConsumption, r.AttitudeTowardLGBT,
   r.ZeroPayGapOpinion, r.VotedParty]

/-- Header of the clean output table: the renamed columns plus the derived
VotedCoalition column. -/
def cleanHeader : List String :=
  columns_to_keep.map column_mapping ++ ["VotedCoalition"]

/-- The clean output table seen as a raw table again, for feeding the
pipeline its own output. -/
def cleanToDF (t : List CleanRow) : DataFrame :=
  ⟨cleanHeader, t.map (fun p => rowCells p.1 ++ [p.2.getD 0])⟩

/-! ## Helper lemmas -/

theorem applyFilters_eq_filter (cols : List String) (t : List CleanRow) :
    applyFilters cols t =
      t.filter (fun p => cols.all (fun c => !(sentinels c).contains (colValue p.1 c))) := by
  induction cols generalizing t with
  | nil => simp [applyFilters]
  | cons c cs ih =>
      have hstep : applyFilters (c :: cs) t = applyFilters cs (filterColumn c t) := rfl
      rw [hstep, ih]
      simp only [filterColumn, List.filter_filter]
      refine List.filter_congr ?_
      intro p _
      simp [List.all_cons, Bool.and_comm]

theorem mem_applyFilters_iff (cols : List String) (t : List CleanRow) (p : CleanRow) :
    p ∈ applyFilters cols t ↔ p ∈ t ∧ ∀ c ∈ cols, colValue p.1 c ∉ sentinels c := by
  rw [applyFilters_eq_filter, List.mem_filter]
  simp

theorem mem_coalitionCollapse_iff (t : List Row) (p : CleanRow) :
    p ∈ coalitionCollapse t ↔
      p.1 ∈ t ∧ votedPartyKeepSet.contains p.1.VotedParty = true ∧
        p.2 = assign_target p.1.VotedParty ∧ p.2.isSome = true := by
  unfold coalitionCollapse dropnaCoalition addCoalition isinPreFilter
  rw [List.mem_filter, List.mem_map]
  constructor
  · rintro ⟨⟨r, hr, rfl⟩, hsome⟩
    exact ⟨(List.mem_filter.mp hr).1, (List.mem_filter.mp hr).2, rfl, hsome⟩
  · rintro ⟨hmem, hkeep, hass, hsome⟩
    refine ⟨⟨p.1, List.mem_filter.mpr ⟨hmem, hkeep⟩, ?_⟩, hsome⟩
    rw [← hass]

theorem collapse_case (v : Int) (k : Int) :
    (votedPartyKeepSet.contains v = true ∧ assign_target v = some k) ↔
      ((v ∈ ([2, 7, 8] : List Int) ∧ k = 1) ∨ (v ∈ ([1, 4, 5] : List Int) ∧ k = 4) ∨
        (v = 3 ∧ k = 2) ∨ (v = 6 ∧ k = 3)) := by
  constructor
  · rintro ⟨hk, ha⟩
    have hv : v ∈ votedPartyKeepSet := by simpa using hk
    fin_cases hv <;> simp_all [assign_target]
  · rintro (⟨hv, rfl⟩ | ⟨hv, rfl⟩ | ⟨rfl, rfl⟩ | ⟨rfl, rfl⟩) <;>
      first
        | (fin_cases hv <;> exact ⟨by decide, by decide⟩)
        | exact ⟨by decide, by decide⟩

/-! ## Claims -/

/-- C1: for every row of the clean output table (the result of the
completeness-filter loop) and every tracked column of the exclusion rules,
the row's value in that column does not equal any of that column's declared
sentinel codes. -/
theorem C1_completeness_invariant (t : List CleanRow) (p : CleanRow) (c : String)
    (hp : p ∈ completenessFilter t) (hc : c ∈ trackedColumns) :
    colValue p.1 c ∉ sentinels c :=
  ((mem_applyFilters_iff trackedColumns t p).mp hp).2 c hc

/-- Witness for C1 on a concrete one-row table and the Age column. -/
theorem C1_completeness_invariant_witness :
    (sampleRow, (some 2 : Option Int)) ∈
        completenessFilter [(sampleRow, (some 2 : Option Int))] ∧
      "Age" ∈ trackedColumns ∧ colValue sampleRow "Age" ∉ sentinels "Age" :=
  ⟨by decide, by decide,
    C1_completeness_invariant [(sampleRow, some 2)] (sampleRow, some 2) "Age"
      (by decide) (by decide)⟩

/-- C2: every row surviving the coalition-collapse stage (hence every row of
the clean output) carries one of exactly the four coalition codes 1 = CSX,
2 = M5S, 3 = TerzoPolo, 4 = CDX; no row with an unresolved (none) coalition
remains. -/
theorem C2_coalition_total (t : List Row) (p : CleanRow)
    (hp : p ∈ completenessFilter (coalitionCollapse t)) :
    p.2 ∈ ([some 1, some 2, some 3, some 4] : List (Option Int)) := by
  have hcol : p ∈ coalitionCollapse t :=
    ((mem_applyFilters_iff trackedColumns (coalitionCollapse t) p).mp hp).1
  obtain ⟨_, hkeep, hass, hsome⟩ := (mem_coalitionCollapse_iff t p).mp hcol
  obtain ⟨k, hk⟩ := Option.isSome_iff_exists.mp hsome
  rw [hk]
  have hcase := (collapse_case p.1.VotedParty k).mp ⟨hkeep, hass.symm.trans hk⟩
  rcases hcase with ⟨_, rfl⟩ | ⟨_, rfl⟩ | ⟨_, rfl⟩ | ⟨_, rfl⟩ <;> simp

/-- Witness for C2 on a concrete one-row table (VotedParty 3 collapses to
coalition 2, M5S). -/
theorem C2_coalition_total_witness :
    (sampleRow, (some 2 : Option Int)) ∈
        completenessFilter (coalitionCollapse [sampleRow]) ∧
      (some 2 : Option Int) ∈ ([some 1, some 2, some 3, some 4] : List (Option Int)) :=
  ⟨by decide, C2_coalition_total [sampleRow] (sampleRow, some 2) (by decide)⟩

/-- C3 counterexample: `assign_target` does map code 10 to CSX (coalition 1),
but the isin pre-filter of line 126 keeps only codes 1 through 8, so a row
whose voted-party code is 10 is dropped, not retained with CSX as the claim
states. -/
theorem C3_counterexample :
    assign_target 10 = some 1 ∧ coalitionCollapse [rowVP 10] = [] :=
  ⟨by decide, by decide⟩

/-- C3 amended: the composite collapse stage retains a row exactly when its
voted-party code is one of 2, 7, 8 (CSX), 1, 4, 5 (CDX), 3 (M5S) or
6 (TerzoPolo), assigning that coalition; every other code, code 10 and the
sentinel codes included, leads to exclusion. -/
theorem C3_coalition_policy (t : List Row) (p : CleanRow) :
    p ∈ coalitionCollapse t ↔
      p.1 ∈ t ∧
        ((p.1.VotedParty ∈ ([2, 7, 8] : List Int) ∧ p.2 = some 1) ∨
          (p.1.VotedParty ∈ ([1, 4, 5] : List Int) ∧ p.2 = some 4) ∨
          (p.1.VotedParty = 3 ∧ p.2 = some 2) ∨
          (p.1.VotedParty = 6 ∧ p.2 = some 3)) := by
  rw [mem_coalitionCollapse_iff]
  constructor
  · rintro ⟨hmem, hkeep, hass, hsome⟩
    obtain ⟨k, hk⟩ := Option.isSome_iff_exists.mp hsome
    have hcase := (collapse_case p.1.VotedParty k).mp ⟨hkeep, hass.symm.trans hk⟩
    refine ⟨hmem, ?_⟩
    rcases hcase with ⟨h, rfl⟩ | ⟨h, rfl⟩ | ⟨h, rfl⟩ | ⟨h, rfl⟩ <;> simp [h, hk]
  · rintro ⟨hmem, hcase⟩
    rcases hcase with ⟨h, hp2⟩ | ⟨h, hp2⟩ | ⟨h, hp2⟩ | ⟨h, hp2⟩
    · have hc := (collapse_case p.1.VotedParty 1).mpr (Or.inl ⟨h, rfl⟩)
      exact ⟨hmem, hc.1, hp2.trans hc.2.symm, by rw [hp2]; rfl⟩
    · have hc := (collapse_case p.1.VotedParty 4).mpr (Or.inr (Or.inl ⟨h, rfl⟩))
      exact ⟨hmem, hc.1, hp2.trans hc.2.symm, by rw [hp2]; rfl⟩
    · have hc := (collapse_case p.1.VotedParty 2).mpr (Or.inr (Or.inr (Or.inl ⟨h, rfl⟩)))
      exact ⟨hmem, hc.1, hp2.trans hc.2.symm, by rw [hp2]; rfl⟩
    · have hc := (collapse_case p.1.VotedParty 3).mpr (Or.inr (Or.inr (Or.inr ⟨h, rfl⟩)))
      exact ⟨hmem, hc.1, hp2.trans hc.2.symm, by rw [hp2]; rfl⟩

/-- Witness for C3 amended: a row voting party 2 is retained with coalition
CSX. -/
theorem C3_coalition_policy_witness :
    (rowVP 2, (some 1 : Option Int)) ∈ coalitionCollapse [rowVP 2] :=
  (C3_coalition_policy [rowVP 2] (rowVP 2, some 1)).mpr
    ⟨by decide, Or.inl ⟨by decide, rfl⟩⟩

/-- C4: applying the per-column sentinel filters in any permutation of the
tracked-column order yields the identical final row set as the specified
order. -/
theorem C4_order_invariance (cols : List String) (t : List CleanRow)
    (h : cols.Perm trackedColumns) :
    applyFilters cols t = completenessFilter t := by
  rw [applyFilters_eq_filter, completenessFilter, applyFilters_eq_filter]
  refine List.filter_congr ?_
  intro p _
  rw [List.all_eq, List.all_eq]
  exact decide_eq_decide.mpr
    ⟨fun hx x hm => hx x (h.mem_iff.mpr hm), fun hx x hm => hx x (h.mem_iff.mp hm)⟩

/-- Witness for C4: the reversed column order on a concrete one-row table. -/
theorem C4_order_invariance_witness :
    applyFilters trackedColumns.reverse [(sampleRow, (some 2 : Option Int))] =
      completenessFilter [(sampleRow, (some 2 : Option Int))] :=
  C4_order_invariance trackedColumns.reverse [(sampleRow, some 2)]
    (trackedColumns.reverse_perm)

/-- C10: every row surviving the coalition collapse has a voted-party code
in 1..8, so the first completeness-filter step (the VotedParty sentinels 66,
77, 88, 99) removes zero rows, and the first FilterReport entry always
equals the post-collapse row count. -/
theorem C10_first_filter_noop (t : List Row) :
    filterColumn "VotedParty" (coalitionCollapse t) = coalitionCollapse t ∧
      (filterReport (coalitionCollapse t)).head? =
        some ("VotedParty", (coalitionCollapse t).length) := by
  have hfix : filterColumn "VotedParty" (coalitionCollapse t) = coalitionCollapse t := by
    rw [filterColumn, List.filter_eq_self]
    intro p hp
    obtain ⟨-, hkeep, -, -⟩ := (mem_coalitionCollapse_iff t p).mp hp
    have hv : p.1.VotedParty = 1 ∨ p.1.VotedParty = 2 ∨ p.1.VotedParty = 3 ∨
        p.1.VotedParty = 4 ∨ p.1.VotedParty = 5 ∨ p.1.VotedParty = 6 ∨
        p.1.VotedParty = 7 ∨ p.1.VotedParty = 8 := by
      simpa [votedPartyKeepSet] using hkeep
    rcases hv with h | h | h | h | h | h | h | h <;> simp [colValue, sentinels, h]
  refine ⟨hfix, ?_⟩
  have hrep : filterReport (coalitionCollapse t) =
      ("VotedParty", (filterColumn "VotedParty" (coalitionCollapse t)).length) ::
        filterReportAux
          ["ZeroPayGapOpinion", "MediaConsumption", "AttitudeTowardLGBT",
           "EducationLevel", "Age", "Religion", "TrustEP",
           "AttitudesTowardImmigration", "Gender", "HouseholdIncome",
           "EmploymentStatus", "TradeUnionMember", "PoliticalInterest",
           "LeftRightScale", "SatisfactionDemocracy", "Region"]
          (filterColumn "VotedParty" (coalitionCollapse t)) := rfl
  rw [hrep, hfix]
  rfl

/-- C5 counterexample: on a raw table whose single row carries voted-party
code 9, the coalition collapse yields zero rows, yet the run does not abort:
the pipeline still emits a clean output table (the empty one). The source
raises no EmptyResultError anywhere. -/
theorem C5_counterexample :
    coalitionCollapse [toRow (sampleCells 9)] = [] ∧
      pipeline (dfOneRow 9) = some [] :=
  ⟨by decide, by decide⟩

/-- C5 amended: the pipeline never aborts on an empty intermediate table:
whenever every required source column is present it returns a clean table,
and a run whose coalition collapse already yields zero rows returns the
empty clean table rather than an error. -/
theorem C5_silent_empty (df : DataFrame)
    (h : ∀ c ∈ columns_to_keep, c ∈ df.header) :
    ∃ out, pipeline df = some out ∧
      (coalitionCollapse ((df.rows.map (projectRow df.header)).map toRow) = [] →
        out = []) := by
  have hall : columns_to_keep.all (fun c => df.header.contains c) = true := by
    simp only [List.all_eq_true]
    intro c hc
    simpa using h c hc
  refine ⟨completenessFilter
    (coalitionCollapse ((df.rows.map (projectRow df.header)).map toRow)), ?_, ?_⟩
  · rw [pipeline, selectRename, selectColumns, if_pos hall]
    rfl
  · intro hempty
    rw [hempty]
    rfl

/-- Witness for C5 on the concrete one-row table with voted-party code 9. -/
theorem C5_silent_empty_witness :
    ∃ out, pipeline (dfOneRow 9) = some out ∧
      (coalitionCollapse (((dfOneRow 9).rows.map (projectRow (dfOneRow 9).header)).map toRow) = [] →
        out = []) :=
  C5_silent_empty (dfOneRow 9) (by decide)

/-- C6: the projection-and-rename stage returns a table holding exactly the
listed columns, in the given column order and the same row order, with the
fixed rename substitution applied to the header and with each renamed
column's cells equal to the source column's cells; it fails (returning no
partial output) precisely when some listed source column is absent from the
raw table. -/
theorem C6_projection_rename (df : DataFrame) :
    ((selectRename df).isSome ↔ ∀ c ∈ columns_to_keep, c ∈ df.header) ∧
      (∀ out, selectRename df = some out →
        out.header = columns_to_keep.map column_mapping ∧
          ∀ i : Nat, out.rows.get? i = (df.rows.get? i).map (projectRow df.header)) ∧
      (∀ cells, ∀ c ∈ columns_to_keep,
        lookupCell (columns_to_keep.map column_mapping) (projectRow df.header cells)
            (column_mapping c) =
          lookupCell df.header cells c) := by
  refine ⟨?_, ?_, ?_⟩
  · by_cases hall : columns_to_keep.all (fun c => df.header.contains c) = true
    · rw [selectRename, selectColumns, if_pos hall]
      simp only [Option.map_some', Option.isSome_some, true_iff]
      intro c hc
      simpa using List.all_eq_true.mp hall c hc
    · rw [selectRename, selectColumns, if_neg hall]
      simp only [Option.map_none', Option.isSome_none, Bool.false_eq_true, false_iff]
      intro hmem
      apply hall
      rw [List.all_eq_true]
      intro c hc
      simpa using hmem c hc
  · intro out hout
    have hall : columns_to_keep.all (fun c => df.header.contains c) = true := by
      by_contra hno
      rw [selectRename, selectColumns, if_neg hno] at hout
      simp at hout
    rw [selectRename, selectColumns, if_pos hall, Option.map_some'] at hout
    have hbody := Option.some_inj.mp hout
    subst hbody
    exact ⟨rfl, fun i => by simp [renameColumns, List.get?_map]⟩
  · intro cells c hc
    fin_cases hc <;> rfl

/-- Witness for C6 on the concrete one-row raw table. -/
theorem C6_projection_rename_witness :
    (selectRename (dfOneRow 3)).isSome ∧
      lookupCell (columns_to_keep.map column_mapping)
          (projectRow (dfOneRow 3).header (sampleCells 3)) "VotedParty" =
        lookupCell (dfOneRow 3).header (sampleCells 3) "prtvteit" :=
  ⟨(C6_projection_rename (dfOneRow 3)).1.mpr (by decide),
    (C6_projection_rename (dfOneRow 3)).2.2 (sampleCells 3) "prtvteit" (by decide)⟩

/-- Every voted-party code kept by the isin pre-filter is classifiable, so
the dropna after `assign_target` removes nothing. -/
theorem assign_isSome_of_keep (v : Int)
    (h : votedPartyKeepSet.contains v = true) : (assign_target v).isSome = true := by
  have hv : v ∈ votedPartyKeepSet := by simpa using h
  fin_cases hv <;> decide

/-- The post-collapse row count is the number of input rows whose
voted-party code lies in 1..8. -/
theorem coalitionCollapse_length (t : List Row) :
    (coalitionCollapse t).length = t.countP keepPred := by
  rw [coalitionCollapse, dropnaCoalition, List.filter_eq_self.mpr, addCoalition,
    List.length_map, isinPreFilter, ← List.countP_eq_length_filter]
  · exact List.countP_congr (fun r _ => Iff.rfl)
  · intro p hp
    rw [addCoalition, List.mem_map] at hp
    obtain ⟨r, hr, rfl⟩ := hp
    exact assign_isSome_of_keep r.VotedParty (List.mem_filter.mp hr).2

/-- Codes in the declared VotedParty sentinel set are not kept codes. -/
theorem sentinel_not_keep (v : Int) (h : v ∈ ([66, 77, 88, 99] : List Int)) :
    v ∉ votedPartyKeepSet := by
  fin_cases h <;> decide

/-- Codes in the declared VotedParty sentinel set differ from 9. -/
theorem sentinel_ne_nine (v : Int) (h : v ∈ ([66, 77, 88, 99] : List Int)) :
    v ≠ 9 := by
  fin_cases h <;> decide

/-- Partition of the rows into sentinel-coded, code-9 and kept rows, when
every remaining code is a kept code. -/
theorem tri_count (t : List Row)
    (hrest : ∀ r ∈ t, r.VotedParty ∉ ([66, 77, 88, 99] : List Int) →
      r.VotedParty ≠ 9 → r.VotedParty ∈ votedPartyKeepSet) :
    t.countP keepPred + t.countP sentPred + t.countP ninePred = t.length := by
  induction t with
  | nil => rfl
  | cons r rs ih =>
      have ihh := ih (fun x hx => hrest x (List.mem_cons_of_mem r hx))
      rw [List.length_cons]
      by_cases ha : r.VotedParty ∈ ([66, 77, 88, 99] : List Int)
      · rw [List.countP_cons_of_neg keepPred rs
            (by simpa [keepPred] using sentinel_not_keep r.VotedParty ha),
          List.countP_cons_of_pos sentPred rs (by simp [sentPred, ha]),
          List.countP_cons_of_neg ninePred rs
            (by simp [ninePred, sentinel_ne_nine r.VotedParty ha])]
        omega
      · by_cases hb : r.VotedParty = 9
        · rw [List.countP_cons_of_neg keepPred rs
              (by simp only [keepPred]; rw [hb]; decide),
            List.countP_cons_of_neg sentPred rs (by simp [sentPred, ha]),
            List.countP_cons_of_pos ninePred rs (by simp [ninePred, hb])]
          omega
        · rw [List.countP_cons_of_pos keepPred rs
              (by simpa [keepPred] using hrest r (List.mem_cons_self r rs) ha hb),
            List.countP_cons_of_neg sentPred rs (by simp [sentPred, ha]),
            List.countP_cons_of_neg ninePred rs (by simp [ninePred, hb])]
          omega

/-- C8 counterexample: a 1000-row table with exactly 50 rows coded in the
66/77/88/99 sentinel set and exactly 10 rows coded 9 whose remaining 940
rows carry the unclassifiable code 11; the post-collapse row count is 0,
not 940, because nothing constrains the remaining rows to kept codes. -/
theorem C8_counterexample :
    (List.replicate 50 (rowVP 66) ++ List.replicate 10 (rowVP 9) ++
        List.replicate 940 (rowVP 11)).length = 1000 ∧
      (List.replicate 50 (rowVP 66) ++ List.replicate 10 (rowVP 9) ++
          List.replicate 940 (rowVP 11)).countP sentPred = 50 ∧
      (List.replicate 50 (rowVP 66) ++ List.replicate 10 (rowVP 9) ++
          List.replicate 940 (rowVP 11)).countP ninePred = 10 ∧
      (coalitionCollapse (List.replicate 50 (rowVP 66) ++ List.replicate 10 (rowVP 9) ++
          List.replicate 940 (rowVP 11))).length ≠ 940 := by
  refine ⟨?_, ?_, ?_, ?_⟩
  · rw [List.length_append, List.length_append, List.length_replicate,
      List.length_replicate, List.length_replicate]
  · rw [List.countP_append, List.countP_append, List.countP_replicate,
      List.countP_replicate, List.countP_replicate]
    decide
  · rw [List.countP_append, List.countP_append, List.countP_replicate,
      List.countP_replicate, List.countP_replicate]
    decide
  · rw [coalitionCollapse_length, List.countP_append, List.countP_append,
      List.countP_replicate, List.countP_replicate, List.countP_replicate]
    decide

/-- C8 amended: for every 1000-row table with exactly 50 rows coded in the
66/77/88/99 sentinel set, exactly 10 rows coded 9, and every remaining row
carrying a kept code 1..8, the post-collapse row count is exactly 940. -/
theorem C8_post_collapse_count (t : List Row)
    (hlen : t.length = 1000)
    (h66 : t.countP sentPred = 50)
    (h9 : t.countP ninePred = 10)
    (hrest : ∀ r ∈ t, r.VotedParty ∉ ([66, 77, 88, 99] : List Int) →
      r.VotedParty ≠ 9 → r.VotedParty ∈ votedPartyKeepSet) :
    (coalitionCollapse t).length = 940 := by
  have htri := tri_count t hrest
  rw [coalitionCollapse_length]
  omega

/-- Witness for C8 on a concrete 1000-row table whose remaining 940 rows
vote party 2. -/
theorem C8_post_collapse_count_witness :
    (coalitionCollapse (List.replicate 50 (rowVP 66) ++ List.replicate 10 (rowVP 9) ++
        List.replicate 940 (rowVP 2))).length = 940 :=
  C8_post_collapse_count
    (List.replicate 50 (rowVP 66) ++ List.replicate 10 (rowVP 9) ++
      List.replicate 940 (rowVP 2))
    (by
      rw [List.length_append, List.length_append, List.length_replicate,
        List.length_replicate, List.length_replicate])
    (by
      rw [List.countP_append, List.countP_append, List.countP_replicate,
        List.countP_replicate, List.countP_replicate]
      decide)
    (by
      rw [List.countP_append, List.countP_append, List.countP_replicate,
        List.countP_replicate, List.countP_replicate]
      decide)
    (by
      intro r hr h1 h2
      rcases List.mem_append.mp hr with hr' | hr'
      · rcases List.mem_append.mp hr' with hr'' | hr''
        · exact absurd (by rw [List.eq_of_mem_replicate hr'']; decide) h1
        · exact absurd (by rw [List.eq_of_mem_replicate hr'']; decide) h2
      · rw [List.eq_of_mem_replicate hr']
        decide)

/-- Unfolding of the coalition collapse on a row that is kept and
classifiable. -/
theorem coalitionCollapse_cons_pos (x : Row) (xs : List Row)
    (hk : votedPartyKeepSet.contains x.VotedParty = true)
    (hs : (assign_target x.VotedParty).isSome = true) :
    coalitionCollapse (x :: xs) =
      (x, assign_target x.VotedParty) :: coalitionCollapse xs := by
  have hk' : x.VotedParty ∈ votedPartyKeepSet := by simpa using hk
  simp [coalitionCollapse, isinPreFilter, addCoalition, dropnaCoalition,
    List.filter_cons, hk', hs]

/-- Re-collapsing a table whose rows already went through the collapse
leaves it unchanged. -/
theorem collapse_self (u : List CleanRow)
    (h : ∀ p ∈ u, votedPartyKeepSet.contains p.1.VotedParty = true ∧
      p.2 = assign_target p.1.VotedParty ∧ p.2.isSome = true) :
    coalitionCollapse (u.map Prod.fst) = u := by
  induction u with
  | nil => rfl
  | cons p ps ih =>
      obtain ⟨hk, ha, hsome⟩ := h p (List.mem_cons_self p ps)
      have hs : (assign_target p.1.VotedParty).isSome = true := by
        rw [← ha]; exact hsome
      rw [List.map_cons, coalitionCollapse_cons_pos p.1 _ hk hs, ← ha,
        ih (fun x hx => h x (List.mem_cons_of_mem p hx))]

/-- Re-filtering a table whose rows are already sentinel-free leaves it
unchanged. -/
theorem completenessFilter_self (u : List CleanRow)
    (h : ∀ p ∈ u, ∀ c ∈ trackedColumns, colValue p.1 c ∉ sentinels c) :
    completenessFilter u = u := by
  rw [completenessFilter, applyFilters_eq_filter, List.filter_eq_self]
  intro p hp
  simp only [List.all_eq_true]
  intro c hc
  simp [h p hp c hc]

/-- C9 counterexample: the pipeline turns a concrete raw one-row table into
a clean table, but re-applying the complete pipeline (whose first stage
projects the raw source column names) to that clean output fails with the
missing-column error, because the clean table carries the renamed columns;
it does not return the table unchanged. -/
theorem C9_counterexample :
    pipeline (dfOneRow 3) = some [(sampleRow, (some 2 : Option Int))] ∧
      pipeline (cleanToDF [(sampleRow, (some 2 : Option Int))]) = none :=
  ⟨by decide, by decide⟩

/-- C9 amended: the post-projection stages are idempotent on the pipeline's
own output: re-applying the coalition collapse and the completeness filter
to any clean output table returns it unchanged (the projection stage instead
rejects the clean output, whose columns carry the renamed labels). -/
theorem C9_post_stage_idempotent (df : DataFrame) (out : List CleanRow)
    (h : pipeline df = some out) :
    completenessFilter (coalitionCollapse (out.map Prod.fst)) = out := by
  rw [pipeline] at h
  obtain ⟨mid, hmid, hout⟩ := Option.map_eq_some'.mp h
  have hinv1 : ∀ p ∈ out, votedPartyKeepSet.contains p.1.VotedParty = true ∧
      p.2 = assign_target p.1.VotedParty ∧ p.2.isSome = true := by
    intro p hp
    rw [← hout] at hp
    have hcol : p ∈ coalitionCollapse (mid.rows.map toRow) :=
      ((mem_applyFilters_iff trackedColumns _ p).mp hp).1
    obtain ⟨-, hk, ha, hs⟩ := (mem_coalitionCollapse_iff _ p).mp hcol
    exact ⟨hk, ha, hs⟩
  have hinv2 : ∀ p ∈ out, ∀ c ∈ trackedColumns, colValue p.1 c ∉ sentinels c := by
    intro p hp
    rw [← hout] at hp
    exact ((mem_applyFilters_iff trackedColumns _ p).mp hp).2
  rw [collapse_self out hinv1, completenessFilter_self out hinv2]

/-- Witness for C9 on the concrete one-row pipeline output. -/
theorem C9_post_stage_idempotent_witness :
    completenessFilter
        (coalitionCollapse (([(sampleRow, (some 2 : Option Int))]).map Prod.fst)) =
      [(sampleRow, (some 2 : Option Int))] :=
  C9_post_stage_idempotent (dfOneRow 3) [(sampleRow, some 2)] (by decide)

/-- Cell-wise reading of the pandas `replace`: sentinel values become the
missing marker, all other values stay. -/
theorem replaceSentinels_eq (c : String) (v : Int) :
    replaceSentinels c v = if v ∈ sentinels c then none else some v := by
  rw [replaceSentinels]
  by_cases h : v ∈ sentinels c
  · rw [if_pos (by simpa using h), if_pos h]
  · rw [if_neg (by simpa using h), if_neg h]

/-- C7: the sentinel-to-missing translation is computed row-by-row as a pure
function of the input table: the translated table has the translated row at
every position of the original row, each tracked cell becomes the missing
marker exactly when its value lies in the column's sentinel set and is kept
unchanged otherwise, and the VotedCoalition column, absent from the rules,
is untouched. -/
theorem C7_sentinel_translation (t : List CleanRow) (i : Nat) (p : CleanRow)
    (c : String) (hi : t.get? i = some p) (hc : c ∈ trackedColumns) :
    (translateTable t).get? i = some (translateRow p) ∧
      mcolValue (translateRow p) c =
        (if colValue p.1 c ∈ sentinels c then none else some (colValue p.1 c)) ∧
      (translateRow p).VotedCoalition = p.2 := by
  refine ⟨by rw [translateTable, List.get?_map, hi]; rfl, ?_, rfl⟩
  fin_cases hc <;> simp [mcolValue, translateRow, replaceSentinels_eq, colValue]

/-- Witness for C7: a row whose household-income cell holds the sentinel 77
is translated to the missing marker in that column. -/
theorem C7_sentinel_translation_witness :
    (translateTable [({sampleRow with HouseholdIncome := 77}, (some 2 : Option Int))]).get? 0 =
        some (translateRow ({sampleRow with HouseholdIncome := 77}, some 2)) ∧
      mcolValue (translateRow ({sampleRow with HouseholdIncome := 77}, some 2))
          "HouseholdIncome" =
        (if colValue {sampleRow with HouseholdIncome := 77} "HouseholdIncome" ∈
            sentinels "HouseholdIncome" then none
          else some (colValue {sampleRow with HouseholdIncome := 77} "HouseholdIncome")) ∧
      (translateRow ({sampleRow with HouseholdIncome := 77}, some 2)).VotedCoalition =
        some 2 :=
  C7_sentinel_translation [({sampleRow with HouseholdIncome := 77}, some 2)] 0
    ({sampleRow with HouseholdIncome := 77}, some 2) "HouseholdIncome" (by rfl) (by decide)

end VotingBehavior
